import Mathlib

/-!
Shallow embedding of the playback abstraction of the TAB music player
(`createMusicManager` in the music-manager module, plus the add-song URL
normalization in the custom-song dialog).

Modelling conventions:
* The mutable closure variables of `createMusicManager` become fields of
  `EngineState`; each public operation is a function `EngineState → EngineState`
  (paired with an error component where the source is an async function whose
  promise can reject).
* The external `AudioContext`, `<audio>` element and YouTube iframe player are
  modelled by the parts of their state the source reads or writes.  Methods of
  the external player are modelled as total state updates.
* JS timers become explicit fields: `intervalScheduled` says a 250 ms polling
  interval is actually scheduled, `intervalHandle` says the
  `youtubeTimeUpdateInterval` variable holds a (possibly stale) id — the source
  distinguishes the two because `destroy` calls `clearInterval` without
  resetting the variable.  `pendingResume` counts in-flight 500 ms
  `setTimeout` callbacks scheduled by `setPlaying`; the source never stores
  their ids, so nothing can clear them.  `animScheduled` says a
  `requestAnimationFrame` callback is pending.
* `Math.sin` and `Math.random` are passed in as arbitrary rational-valued
  functions; numbers are rationals.
-/

namespace MusicManager

/-- Song record (`Song` in the data module): name, url, author, isCustom. -/
structure Song where
  name : String
  url : String
  author : String
  isCustom : Bool
deriving DecidableEq

/-- Characters accepted by the video-id capture group `[a-zA-Z0-9_-]`. -/
def idChar (c : Char) : Bool :=
  c.isAlpha || c.isDigit || c = '_' || c = '-'

/-- The literal alternative `youtube.com/watch?v=` of the classification regex. -/
def watchMarker : List Char :=
  ['y', 'o', 'u', 't', 'u', 'b', 'e', '.', 'c', 'o', 'm', '/', 'w', 'a', 't', 'c', 'h', '?', 'v', '=']

/-- The literal alternative `youtu.be/` of the classification regex. -/
def shortMarker : List Char :=
  ['y', 'o', 'u', 't', 'u', '.', 'b', 'e', '/']

/-- Match a literal pattern at the head of a character list, returning the
remainder on success (the way the regex engine consumes a literal alternative). -/
def stripLit : List Char → List Char → Option (List Char)
  | [], l => some l
  | _ :: _, [] => none
  | p :: ps, c :: cs => if p = c then stripLit ps cs else none

/-- Left-to-right scan of the regex
`(?:youtube\.com\/watch\?v=|youtu\.be\/)([a-zA-Z0-9_-]+)`: at each position try
the first literal alternative then the second; on a hit, the capture is the
maximal nonempty run of id characters after the literal.  Returns the captured
group of the first (leftmost) match. -/
def findYTMatch : List Char → Option (List Char)
  | [] => none
  | c :: rest =>
    match stripLit watchMarker (c :: rest) with
    | some after =>
      let run := after.takeWhile idChar
      if run.isEmpty then findYTMatch rest else some run
    | none =>
      match stripLit shortMarker (c :: rest) with
      | some after =>
        let run := after.takeWhile idChar
        if run.isEmpty then findYTMatch rest else some run
      | none => findYTMatch rest

/-- `isYouTubeUrl` from the music manager: `regex.test(url)`. -/
def isYouTubeUrl (url : String) : Bool :=
  (findYTMatch url.data).isSome

/-- `getYouTubeVideoId` from the music manager: `url.match(regex)` and the
first capture group, or `null`. -/
def getYouTubeVideoId (url : String) : Option String :=
  (findYTMatch url.data).map (fun l => String.mk l)

/-- `convertYouTubeUrl` from the custom-song dialog: normalize any recognized
video url to the canonical watch form, and leave any other url unchanged. -/
def convertYouTubeUrl (url : String) : String :=
  match getYouTubeVideoId url with
  | some vid => "https://www.youtube.com/watch?v=" ++ vid
  | none => url

/-- The backend kind tracked by the `currentSongType` closure variable. -/
inductive SongType
  | audio
  | youtube
deriving DecidableEq

/-- States of the embedded YouTube player (`YT.PlayerState`). -/
inductive YTState
  | unstarted
  | ended
  | playing
  | paused
  | buffering
  | cued
deriving DecidableEq

/-- `AudioContext.state` values the source inspects. -/
inductive CtxState
  | suspended
  | running
deriving DecidableEq

/-- The slice of the embedded YouTube player's state the source touches.
Methods (`stopVideo`, `loadVideoById`, `playVideo`, `pauseVideo`,
`setVolume`, `destroy`) are modelled as total updates of this record; the
native volume range is 0–100. -/
structure YTPlayer where
  playerState : YTState
  ytVolume : ℚ
  loadedVideo : Option String
  destroyed : Bool
deriving DecidableEq

/-- The slice of the `<audio>` element's state the source touches. -/
structure AudioEl where
  paused : Bool
  src : Option String
  volume : ℚ
deriving DecidableEq

/-- The closure state of `createMusicManager` together with the modelled
external resources.  `lPlay`/`lPause`/`lTimeupdate`/`lEnded` record whether the
four audio-element listeners registered by `init` are currently attached.
`analyserData` is the content of the shared `AnalyserNode` frequency sink that
visualization code reads. -/
structure EngineState where
  currentSongType : SongType
  youtubePlayer : Option YTPlayer
  intervalScheduled : Bool
  intervalHandle : Bool
  oscillator : Bool
  animScheduled : Bool
  timeOffset : ℚ
  pendingResume : ℕ
  audio : AudioEl
  ctxState : CtxState
  analyserData : List ℕ
  bufferLength : ℕ
  sampleRate : ℚ
  lPlay : Bool
  lPause : Bool
  lTimeupdate : Bool
  lEnded : Bool
deriving DecidableEq

/-- Environment of one `play()` call: whether `context.resume()` and
`audio.play()` would succeed (they reject e.g. absent a user gesture). -/
structure Env where
  resumeOk : Bool
  playOk : Bool
deriving DecidableEq

/-- The two rejection points of the direct-media `play()` path. -/
inductive PlayErr
  | resumeRejected
  | playRejected
deriving DecidableEq

/-- The guard `currentSongType === 'youtube' && youtubePlayer` used throughout
the source (the per-method `&& youtubePlayer.method` checks are truthy whenever
the player object exists). -/
def ytActive (s : EngineState) : Bool :=
  match s.currentSongType, s.youtubePlayer with
  | SongType.youtube, some _ => true
  | _, _ => false

/-- Apply an update to the YouTube player if it exists. -/
def mapYT (f : YTPlayer → YTPlayer) (s : EngineState) : EngineState :=
  { s with youtubePlayer := s.youtubePlayer.map f }

/-- `stopYouTubeVisualization`: if the oscillator exists, cancel the stored
animation id, stop and disconnect the oscillator, and null the variable.  The
stored `_animationId` is the stale value captured before the first frame was
scheduled (always `undefined`), so the guard `if (_animationId)` fails and the
pending animation frame is NOT cancelled here; the frame loop instead ends
itself at its next tick when it sees the nulled oscillator. -/
def stopYouTubeVisualization (s : EngineState) : EngineState :=
  if s.oscillator then { s with oscillator := false } else s

/-- One amplitude sample of `updateVisualizationData` before the byte store:
the layered bass/mid/high model, the random jitter, and the periodic beat
boost, exactly as in the source. -/
def genAmplitude (sin : ℚ → ℚ) (rand : ℕ → ℚ) (t : ℚ) (n : ℕ) (sr : ℚ) (i : ℕ) : ℚ :=
  let frequency : ℚ := ((i : ℚ) / (n : ℚ)) * (sr / 2)
  let base : ℚ :=
    if frequency < 200 then 120 + sin (t * 2 + (i : ℚ) * (1 / 10)) * 60
    else if frequency < 2000 then 100 + sin (t * (3 / 2) + (i : ℚ) * (1 / 20)) * 40
    else if frequency < 8000 then 80 + sin (t * 3 + (i : ℚ) * (1 / 50)) * 30
    else 40 + sin (t * 4 + (i : ℚ) * (1 / 100)) * 20
  let jittered : ℚ := base + (rand i - 1 / 2) * 20
  let beatPhase : ℚ := sin (t * (3 / 10)) * (1 / 2) + 1 / 2
  if beatPhase > 7 / 10 then jittered * (3 / 2) else jittered

/-- `dataArray[i] = Math.max(0, Math.min(255, amplitude))`: clamp to the byte
range and store into the `Uint8Array` (which truncates to an integer). -/
def clampByte (q : ℚ) : ℕ :=
  (⌊max 0 (min 255 q)⌋).toNat

/-- The frame of fake frequency data built by one `updateVisualizationData`
tick over all `frequencyBinCount` bins. -/
def genFrame (sin : ℚ → ℚ) (rand : ℕ → ℚ) (t : ℚ) (n : ℕ) (sr : ℚ) : List ℕ :=
  (List.range n).map (fun i => clampByte (genAmplitude sin rand t n sr i))

/-- One firing of the `updateVisualizationData` callback.  If the oscillator
was nulled the callback returns without rescheduling (ending the frame loop).
Otherwise it advances `timeOffset`, builds the fake frequency frame, and
schedules the next frame.  The built frame is returned as the second component
to make explicit that the source computes it into a local `dataArray` and then
never writes it anywhere: the engine's `analyserData` is left untouched. -/
def updateVisualizationData (sin : ℚ → ℚ) (rand : ℕ → ℚ) (s : EngineState) :
    EngineState × Option (List ℕ) :=
  if s.oscillator then
    let t := s.timeOffset + 1 / 10
    let frame := genFrame sin rand t s.bufferLength s.sampleRate
    ({ s with timeOffset := t, animScheduled := true }, some frame)
  else
    ({ s with animScheduled := false }, none)

/-- `startYouTubeVisualization`: stop a previous generator if any, create the
silent oscillator with a fresh `timeOffset`, and run the first visualization
tick synchronously (which schedules the frame loop). -/
def startYouTubeVisualization (sin : ℚ → ℚ) (rand : ℕ → ℚ) (s : EngineState) : EngineState :=
  let s1 := if s.oscillator then stopYouTubeVisualization s else s
  let s2 := { s1 with oscillator := true, timeOffset := 0 }
  (updateVisualizationData sin rand s2).1

/-- The direct-media tail of `play()`: `await audio.play()`.  A browser media
element only actually starts (and can only be rejected) when it is paused; on
an already playing element the call resolves with no effect. -/
def audioPlayStep (env : Env) (s : EngineState) : EngineState × Option PlayErr :=
  if s.audio.paused then
    if env.playOk then
      ({ s with audio := { s.audio with paused := false } }, none)
    else
      (s, some PlayErr.playRejected)
  else
    (s, none)

/-- `play()`.  On the YouTube branch: `playVideo()` and (re)start the 250 ms
polling interval.  On the direct-media branch: resume the suspended audio
context first, then `audio.play()`; either await can reject, and the source
has no catch, so the rejection is returned to the caller. -/
def play (env : Env) (s : EngineState) : EngineState × Option PlayErr :=
  if ytActive s then
    let s1 := mapYT (fun p => { p with playerState := YTState.playing }) s
    ({ s1 with intervalScheduled := true, intervalHandle := true }, none)
  else
    if s.ctxState = CtxState.suspended then
      if env.resumeOk then
        audioPlayStep env { s with ctxState := CtxState.running }
      else
        (s, some PlayErr.resumeRejected)
    else
      audioPlayStep env s

/-- Clearing `youtubeTimeUpdateInterval` the way `pause()` and `setPlaying()`
do: `clearInterval` then set the variable to `undefined`. -/
def clearPolling (s : EngineState) : EngineState :=
  if s.intervalHandle then
    { s with intervalScheduled := false, intervalHandle := false }
  else s

/-- `pause()`: on the YouTube branch `pauseVideo()`, stop the synthetic
generator and clear the polling interval; otherwise pause the audio element. -/
def pause (s : EngineState) : EngineState :=
  if ytActive s then
    clearPolling (stopYouTubeVisualization
      (mapYT (fun p => { p with playerState := YTState.paused }) s))
  else
    { s with audio := { s.audio with paused := true } }

/-- The stop phase at the top of `setPlaying`: if the YouTube backend is
active, `stopVideo()` (the player leaves any playing/buffering state), stop
the generator and clear the polling interval; otherwise pause the audio
element. -/
def stopCurrent (s : EngineState) : EngineState :=
  if ytActive s then
    clearPolling (stopYouTubeVisualization
      (mapYT (fun p => { p with playerState := YTState.unstarted }) s))
  else
    { s with audio := { s.audio with paused := true } }

/-- The load phase of `setPlaying`, run on the stopped state `s1` with the
previously captured `wasPlaying`.  A YouTube url is loaded only when both the
extracted id and the player instance exist; in that case a 500 ms
`setTimeout(() => this.play(), 500)` is scheduled when `wasPlaying` (the
timeout id is dropped, so `pendingResume` can only grow here).  A direct-media
url is assigned to the audio element and resumed synchronously. -/
def loadNewSong (env : Env) (wasPlaying : Bool) (s1 : EngineState) (song : Song) : EngineState :=
  if isYouTubeUrl song.url then
    match getYouTubeVideoId song.url, s1.youtubePlayer with
    | some vid, some p =>
      let s2 := { s1 with
        currentSongType := SongType.youtube,
        youtubePlayer := some { p with loadedVideo := some vid, playerState := YTState.buffering } }
      if wasPlaying then { s2 with pendingResume := s2.pendingResume + 1 } else s2
    | _, _ => s1
  else
    let s2 := { s1 with
      currentSongType := SongType.audio,
      audio := { s1.audio with src := some song.url } }
    if wasPlaying then (play env s2).1 else s2

/-- `isPaused()`: with the YouTube backend active, true whenever the player
state is anything but playing; otherwise true when the audio context is
suspended or the audio element is paused. -/
def isPaused (s : EngineState) : Bool :=
  match s.currentSongType, s.youtubePlayer with
  | SongType.youtube, some p => decide (p.playerState ≠ YTState.playing)
  | _, _ => decide (s.ctxState = CtxState.suspended) || s.audio.paused

/-- `setPlaying(song)`: capture `wasPlaying`, fully stop the current backend,
then classify and load the new song. -/
def setPlaying (env : Env) (s : EngineState) (song : Song) : EngineState :=
  loadNewSong env (!(isPaused s)) (stopCurrent s) song

/-- One firing of a pending 500 ms delayed-resume timeout scheduled by
`setPlaying`: the callback is `() => this.play()` on whatever backend is
active when it fires. -/
def firePendingResume (env : Env) (s : EngineState) : EngineState × Option PlayErr :=
  if s.pendingResume > 0 then
    play env { s with pendingResume := s.pendingResume - 1 }
  else
    (s, none)

/-- `getVolume()`: the YouTube player's native 0–100 volume divided by 100,
otherwise the audio element's 0–1 volume. -/
def getVolume (s : EngineState) : ℚ :=
  match s.currentSongType, s.youtubePlayer with
  | SongType.youtube, some p => p.ytVolume / 100
  | _, _ => s.audio.volume

/-- `setVolume(v)`: multiply by 100 for the YouTube player's native range,
otherwise assign the audio element's volume directly. -/
def setVolume (s : EngineState) (v : ℚ) : EngineState :=
  match s.currentSongType, s.youtubePlayer with
  | SongType.youtube, some _ => mapYT (fun p => { p with ytVolume := v * 100 }) s
  | _, _ => { s with audio := { s.audio with volume := v } }

/-- `destroy()`: `this.pause()`, remove the four audio-element listeners,
`clearInterval` on the (possibly stale) interval id WITHOUT resetting the
variable, stop the generator, and destroy the YouTube player.  Note nothing
here clears a pending delayed-resume timeout. -/
def destroy (s : EngineState) : EngineState :=
  let s1 := pause s
  let s2 := { s1 with lPlay := false, lPause := false, lTimeupdate := false, lEnded := false }
  let s3 := if s2.intervalHandle then { s2 with intervalScheduled := false } else s2
  let s4 := stopYouTubeVisualization s3
  mapYT (fun p => { p with destroyed := true }) s4

/-- The engine state right after `createMusicManager` ran `init`: audio
backend selected, no YouTube player yet, no timers, the four listeners
attached.  The audio-context state and analyser configuration are parameters. -/
def initialState (ctx0 : CtxState) (bl : ℕ) (sr : ℚ) : EngineState :=
  { currentSongType := SongType.audio
    youtubePlayer := none
    intervalScheduled := false
    intervalHandle := false
    oscillator := false
    animScheduled := false
    timeOffset := 0
    pendingResume := 0
    audio := { paused := true, src := none, volume := 1 }
    ctxState := ctx0
    analyserData := List.replicate bl 0
    bufferLength := bl
    sampleRate := sr
    lPlay := true
    lPause := true
    lTimeupdate := true
    lEnded := true }

/-- Queue state of the playlist sequencer: the ordered songs and the current
position. -/
structure QueueState where
  songs : List Song
  currentIndex : Option ℕ
deriving DecidableEq

/-- Modelled from the spec: the queue-manager module is not under `src/`
(only its callers are), so `next()` is taken from the spec's contract for the
Playlist Sequencer — advance to the next index (wrapping to the start, the
spec's example policy), or clear the selection on an empty list, and fire the
selection callback with the new current song or `undefined`. -/
def queueNext (q : QueueState) : QueueState × Option Song :=
  match q.songs, q.currentIndex with
  | [], _ => ({ q with currentIndex := none }, none)
  | ss, some i =>
    let j := (i + 1) % ss.length
    ({ q with currentIndex := some j }, ss.get? j)
  | ss, none => ({ q with currentIndex := some 0 }, ss.get? 0)

/-- The engine together with its playlist sequencer. -/
structure SysState where
  engine : EngineState
  queue : QueueState
deriving DecidableEq

/-- `onEnded`, the natural-completion handler shared by the audio element's
`ended` event and the YouTube `ENDED` state: advance the queue (whose
`onUpdate` callback calls `setPlaying` with the new song when there is one),
then `manager.play()`. -/
def onEnded (env : Env) (sys : SysState) : SysState × Option PlayErr :=
  let r := queueNext sys.queue
  let e1 :=
    match r.2 with
    | some song => setPlaying env sys.engine song
    | none => sys.engine
  let pr := play env e1
  ({ engine := pr.1, queue := r.1 }, pr.2)

/-- The `onStateChange` handler installed on the YouTube player by
`initYouTubePlayer`: `ENDED` runs `onEnded`, `PLAYING` starts the synthetic
visualization, `PAUSED` stops it; other states are ignored. -/
def handleYTEvent (env : Env) (sin : ℚ → ℚ) (rand : ℕ → ℚ) (sys : SysState)
    (e : YTState) : SysState × Option PlayErr :=
  if e = YTState.ended then
    onEnded env sys
  else if e = YTState.playing then
    ({ sys with engine := startYouTubeVisualization sin rand sys.engine }, none)
  else if e = YTState.paused then
    ({ sys with engine := stopYouTubeVisualization sys.engine }, none)
  else
    (sys, none)

/-- The liveness invariant behind claim C1: YouTube-side live state (a running
generator or a scheduled polling interval) only exists while the YouTube
backend is the active one, the audio element is paused whenever the YouTube
backend is active, and a scheduled interval always has its variable set. -/
def Inv (s : EngineState) : Prop :=
  ((s.oscillator = true ∨ s.intervalScheduled = true) → s.currentSongType = SongType.youtube) ∧
  (s.currentSongType = SongType.youtube → s.audio.paused = true ∧ s.youtubePlayer.isSome = true) ∧
  (s.intervalScheduled = true → s.intervalHandle = true)

instance (s : EngineState) : Decidable (Inv s) := by
  unfold Inv
  infer_instance

def sinQ : ℚ → ℚ := fun _ => 0

def randQ : ℕ → ℚ := fun _ => mkRat 1 2

def cEnv : Env := { resumeOk := true, playOk := true }

def cPlayer : YTPlayer :=
  { playerState := YTState.unstarted, ytVolume := 100, loadedVideo := none, destroyed := false }

def cPlaying : EngineState :=
  { initialState CtxState.running 8 44100 with
      youtubePlayer := some cPlayer
      audio := { paused := false, src := some "a.mp3", volume := 1 } }

def cVis : EngineState :=
  { cPlaying with
      currentSongType := SongType.youtube
      oscillator := true
      animScheduled := true
      intervalScheduled := true
      intervalHandle := true
      audio := { paused := true, src := none, volume := 1 } }

def cSongA : Song := { name := "A", url := "https://youtu.be/XYZ123", author := "User", isCustom := true }

def cSongB : Song := { name := "B", url := "b.mp3", author := "User", isCustom := true }

def cS1 : EngineState := setPlaying cEnv cPlaying cSongA

def cS2 : EngineState := setPlaying cEnv cS1 cSongB

def cSuspended : EngineState := initialState CtxState.suspended 8 44100

def cQueue : QueueState := { songs := [cSongA, cSongB], currentIndex := some 0 }

def cSys : SysState := { engine := initialState CtxState.running 8 44100, queue := cQueue }

def cIdleAudio : EngineState :=
  { initialState CtxState.running 8 44100 with
      audio := { paused := true, src := some "a.mp3", volume := 1 } }

theorem stripLit_append_self (p t : List Char) : stripLit p (p ++ t) = some t := by
  induction p with
  | nil => rfl
  | cons c cs ih => simp [stripLit, ih]

theorem takeWhile_idChar_eq_self (l : List Char) (h : ∀ c ∈ l, idChar c = true) :
    l.takeWhile idChar = l := by
  induction l with
  | nil => rfl
  | cons c cs ih =>
    simp only [List.takeWhile_cons]
    rw [h c (List.mem_cons_self c cs)]
    simp [ih fun d hd => h d (List.mem_cons_of_mem c hd)]

theorem fm_cons_not_y (c : Char) (l : List Char) (h : ¬c = 'y') :
    findYTMatch (c :: l) = findYTMatch l := by
  have h1 : stripLit watchMarker (c :: l) = none := by
    have : ('y' = c) = False := eq_false fun hy => h hy.symm
    simp [watchMarker, stripLit, this]
  have h2 : stripLit shortMarker (c :: l) = none := by
    have : ('y' = c) = False := eq_false fun hy => h hy.symm
    simp [shortMarker, stripLit, this]
  simp [findYTMatch, h1, h2]

theorem strip_watch_on_short (l : List Char) :
    stripLit watchMarker (shortMarker ++ l) = none := by
  simp [watchMarker, shortMarker, stripLit]

theorem fm_watch_start (idl : List Char) (h1 : idl ≠ []) (h2 : ∀ c ∈ idl, idChar c = true) :
    findYTMatch (watchMarker ++ idl) = some idl := by
  have hs : stripLit watchMarker (watchMarker ++ idl) = some idl := stripLit_append_self _ _
  have he : idl.isEmpty = false := by cases idl with
    | nil => exact absurd rfl h1
    | cons a b => rfl
  rw [show watchMarker ++ idl = 'y' ::
      (['o','u','t','u','b','e','.','c','o','m','/','w','a','t','c','h','?','v','='] ++ idl) by
    simp [watchMarker]]
  rw [findYTMatch]
  rw [show ('y' :: (['o','u','t','u','b','e','.','c','o','m','/','w','a','t','c','h','?','v','='] ++ idl))
      = watchMarker ++ idl by simp [watchMarker]]
  rw [hs]
  simp [takeWhile_idChar_eq_self idl h2, he]

theorem fm_short_start (idl : List Char) (h1 : idl ≠ []) (h2 : ∀ c ∈ idl, idChar c = true) :
    findYTMatch (shortMarker ++ idl) = some idl := by
  have hw : stripLit watchMarker (shortMarker ++ idl) = none := strip_watch_on_short idl
  have hs : stripLit shortMarker (shortMarker ++ idl) = some idl := stripLit_append_self _ _
  have he : idl.isEmpty = false := by cases idl with
    | nil => exact absurd rfl h1
    | cons a b => rfl
  rw [show shortMarker ++ idl = 'y' :: (['o','u','t','u','.','b','e','/'] ++ idl) by
    simp [shortMarker]]
  rw [findYTMatch]
  rw [show ('y' :: (['o','u','t','u','.','b','e','/'] ++ idl)) = shortMarker ++ idl by
    simp [shortMarker]]
  rw [hw, hs]
  simp [takeWhile_idChar_eq_self idl h2, he]


theorem fm_watch_url (idl : List Char) (h1 : idl ≠ []) (h2 : ∀ c ∈ idl, idChar c = true) :
    findYTMatch ("https://www.youtube.com/watch?v=".data ++ idl) = some idl := by
  have e : "https://www.youtube.com/watch?v=".data
      = ['h','t','t','p','s',':','/','/','w','w','w','.'] ++ watchMarker := by rfl
  rw [e, List.append_assoc]
  simp only [List.cons_append, List.nil_append]
  rw [fm_cons_not_y _ _ (by decide), fm_cons_not_y _ _ (by decide),
      fm_cons_not_y _ _ (by decide), fm_cons_not_y _ _ (by decide),
      fm_cons_not_y _ _ (by decide), fm_cons_not_y _ _ (by decide),
      fm_cons_not_y _ _ (by decide), fm_cons_not_y _ _ (by decide),
      fm_cons_not_y _ _ (by decide), fm_cons_not_y _ _ (by decide),
      fm_cons_not_y _ _ (by decide), fm_cons_not_y _ _ (by decide)]
  exact fm_watch_start idl h1 h2

theorem fm_short_url (idl : List Char) (h1 : idl ≠ []) (h2 : ∀ c ∈ idl, idChar c = true) :
    findYTMatch ("https://youtu.be/".data ++ idl) = some idl := by
  have e : "https://youtu.be/".data = ['h','t','t','p','s',':','/','/'] ++ shortMarker := by rfl
  rw [e, List.append_assoc]
  simp only [List.cons_append, List.nil_append]
  rw [fm_cons_not_y _ _ (by decide), fm_cons_not_y _ _ (by decide),
      fm_cons_not_y _ _ (by decide), fm_cons_not_y _ _ (by decide),
      fm_cons_not_y _ _ (by decide), fm_cons_not_y _ _ (by decide),
      fm_cons_not_y _ _ (by decide), fm_cons_not_y _ _ (by decide)]
  exact fm_short_start idl h1 h2

theorem data_append (a b : String) : (a ++ b).data = a.data ++ b.data := rfl

theorem ytActive_iff (s : EngineState) :
    ytActive s = true ↔ s.currentSongType = SongType.youtube ∧ s.youtubePlayer.isSome = true := by
  unfold ytActive
  cases hc : s.currentSongType <;> cases hp : s.youtubePlayer <;> simp [hc, hp]

theorem stopCurrent_props (s : EngineState) (h : Inv s) :
    Inv (stopCurrent s) ∧ (stopCurrent s).oscillator = false ∧
    (stopCurrent s).intervalScheduled = false ∧ (stopCurrent s).audio.paused = true ∧
    (stopCurrent s).currentSongType = s.currentSongType ∧
    (stopCurrent s).youtubePlayer.isSome = s.youtubePlayer.isSome := by
  obtain ⟨i1, i2, i3⟩ := h
  by_cases hyt : ytActive s = true
  · obtain ⟨hc, hp⟩ := (ytActive_iff s).mp hyt
    obtain ⟨hpau, -⟩ := i2 hc
    unfold stopCurrent stopYouTubeVisualization clearPolling mapYT
    rw [hyt]
    simp only [if_true]
    by_cases ho : s.oscillator <;> by_cases hh : s.intervalHandle <;>
      simp [ho, hh, Inv, hc, hpau, i3, Option.isSome_map] <;> simp_all
  · have hc : s.currentSongType = SongType.audio := by
      cases hcc : s.currentSongType
      · rfl
      · exfalso
        apply hyt
        rw [ytActive_iff]
        exact ⟨hcc, (i2 hcc).2⟩
    have hosc : s.oscillator = false := by
      by_contra hx
      have := i1 (Or.inl (by simpa using hx))
      rw [hc] at this
      cases this
    have hsch : s.intervalScheduled = false := by
      by_contra hx
      have := i1 (Or.inr (by simpa using hx))
      rw [hc] at this
      cases this
    unfold stopCurrent
    rw [if_neg (by simpa using hyt)]
    simp [Inv, hc, hosc, hsch]

theorem play_nonyt_proj (env : Env) (s : EngineState) (hyt : ytActive s = false) :
    (play env s).1.currentSongType = s.currentSongType ∧
    (play env s).1.oscillator = s.oscillator ∧
    (play env s).1.intervalScheduled = s.intervalScheduled ∧
    (play env s).1.intervalHandle = s.intervalHandle ∧
    (play env s).1.audio.src = s.audio.src ∧
    (play env s).1.youtubePlayer = s.youtubePlayer := by
  unfold play audioPlayStep
  rw [hyt]
  simp only [Bool.false_eq_true, if_false]
  split_ifs <;> simp

theorem loadNewSong_inv (env : Env) (w : Bool) (s1 : EngineState) (song : Song)
    (h : Inv s1) (hosc : s1.oscillator = false) (hsched : s1.intervalScheduled = false)
    (hpaused : s1.audio.paused = true) : Inv (loadNewSong env w s1 song) := by
  obtain ⟨i1, i2, i3⟩ := h
  unfold loadNewSong
  by_cases hu : isYouTubeUrl song.url = true
  · rw [if_pos hu]
    cases hid : getYouTubeVideoId song.url with
    | none => simpa [Inv] using ⟨i1, i2, i3⟩
    | some vid =>
      cases hp : s1.youtubePlayer with
      | none => simpa [Inv] using ⟨i1, i2, i3⟩
      | some p =>
        cases w <;> simp [Inv, hosc, hsched, hpaused]
  · rw [if_neg (by simpa using hu)]
    cases w with
    | false => simp [Inv, hosc, hsched, hpaused]
    | true =>
      have hyt2 : ytActive { s1 with
          currentSongType := SongType.audio,
          audio := { s1.audio with src := some song.url } } = false := by
        unfold ytActive
        simp
      obtain ⟨p1, p2, p3, p4, p5, p6⟩ := play_nonyt_proj env _ hyt2
      simp only [if_true]
      constructor
      · intro hx
        rw [p2, p3] at hx
        simp only [hosc, hsched] at hx
        rcases hx with hx | hx <;> cases hx
      constructor
      · intro hx
        rw [p1] at hx
        cases hx
      · intro hx
        rw [p3] at hx
        simp only [hsched] at hx
        cases hx

theorem setPlaying_inv (env : Env) (s : EngineState) (song : Song) (h : Inv s) :
    Inv (setPlaying env s song) := by
  obtain ⟨hi, ho, hs, hp, -, -⟩ := stopCurrent_props s h
  exact loadNewSong_inv env _ _ song hi ho hs hp

theorem destroy_idem (s : EngineState) : destroy (destroy s) = destroy s := by
  by_cases hyt : ytActive s = true
  · obtain ⟨hc, hp⟩ := (ytActive_iff s).mp hyt
    cases hpl : s.youtubePlayer with
    | none => rw [hpl] at hp; cases hp
    | some p =>
      by_cases ho : s.oscillator <;> by_cases hh : s.intervalHandle <;>
        simp [destroy, pause, clearPolling, stopYouTubeVisualization, mapYT, ytActive, hc, hpl,
          ho, hh]
  · have hc : ytActive s = false := by simpa using hyt
    cases hpl : s.youtubePlayer with
    | none =>
      by_cases ho : s.oscillator <;> by_cases hh : s.intervalHandle <;>
        simp [destroy, pause, clearPolling, stopYouTubeVisualization, mapYT, hpl, ho, hh,
          show ytActive s = false from hc] <;>
        simp_all [ytActive]
    | some p =>
      have hca : s.currentSongType = SongType.audio := by
        cases hcc : s.currentSongType
        · rfl
        · exfalso; rw [ytActive_iff] at hyt; exact hyt ⟨hcc, by rw [hpl]; rfl⟩
      by_cases ho : s.oscillator <;> by_cases hh : s.intervalHandle <;>
        simp [destroy, pause, clearPolling, stopYouTubeVisualization, mapYT, ytActive, hca, hpl,
          ho, hh]

theorem destroy_teardown (s : EngineState) (hInt : s.intervalScheduled = true → s.intervalHandle = true) :
    isPaused (destroy s) = true ∧
    (destroy s).lPlay = false ∧ (destroy s).lPause = false ∧
    (destroy s).lTimeupdate = false ∧ (destroy s).lEnded = false ∧
    (destroy s).intervalScheduled = false ∧
    (destroy s).oscillator = false ∧
    (destroy s).youtubePlayer.map YTPlayer.destroyed = s.youtubePlayer.map (fun _ => true) := by
  have hdict : ¬s.intervalHandle = true → s.intervalScheduled = false := by
    intro hx
    by_contra hy
    exact hx (hInt (by simpa using hy))
  by_cases hyt : ytActive s = true
  · obtain ⟨hc, hp⟩ := (ytActive_iff s).mp hyt
    cases hpl : s.youtubePlayer with
    | none => rw [hpl] at hp; cases hp
    | some p =>
      by_cases hh : s.intervalHandle
      · by_cases ho : s.oscillator <;>
          simp [destroy, pause, clearPolling, stopYouTubeVisualization, mapYT, ytActive, isPaused,
            hc, hpl, ho, hh]
      · by_cases ho : s.oscillator <;>
          simp [destroy, pause, clearPolling, stopYouTubeVisualization, mapYT, ytActive, isPaused,
            hc, hpl, ho, hh, hdict hh]
  · have hc : ytActive s = false := by simpa using hyt
    cases hpl : s.youtubePlayer with
    | none =>
      by_cases hh : s.intervalHandle
      · by_cases ho : s.oscillator <;>
          simp [destroy, pause, clearPolling, stopYouTubeVisualization, mapYT, hpl, ho, hh,
            isPaused, hc]
      · by_cases ho : s.oscillator <;>
          simp [destroy, pause, clearPolling, stopYouTubeVisualization, mapYT, hpl, ho, hh,
            isPaused, hc, hdict hh]
    | some p =>
      have hca : s.currentSongType = SongType.audio := by
        cases hcc : s.currentSongType
        · rfl
        · exfalso; rw [ytActive_iff] at hyt; exact hyt ⟨hcc, by rw [hpl]; rfl⟩
      by_cases hh : s.intervalHandle
      · by_cases ho : s.oscillator <;>
          simp [destroy, pause, clearPolling, stopYouTubeVisualization, mapYT, ytActive, isPaused,
            hca, hpl, ho, hh]
      · by_cases ho : s.oscillator <;>
          simp [destroy, pause, clearPolling, stopYouTubeVisualization, mapYT, ytActive, isPaused,
            hca, hpl, ho, hh, hdict hh]

theorem isYouTubeUrl_iff (u : String) :
    isYouTubeUrl u = true ↔ ∃ v, getYouTubeVideoId u = some v := by
  unfold isYouTubeUrl getYouTubeVideoId
  cases findYTMatch u.data <;> simp

theorem ytActive_of_audio (s : EngineState) (h : s.currentSongType = SongType.audio) :
    ytActive s = false := by
  unfold ytActive
  rw [h]

theorem isPaused_audio (s : EngineState) (h : s.currentSongType = SongType.audio) :
    isPaused s = (decide (s.ctxState = CtxState.suspended) || s.audio.paused) := by
  unfold isPaused
  cases hp : s.youtubePlayer <;> rw [h]

theorem clampByte_le (q : ℚ) : clampByte q ≤ 255 := by
  unfold clampByte
  have h : max 0 (min 255 q) ≤ (255 : ℚ) := max_le (by norm_num) (min_le_left _ _)
  have h2 : ⌊max 0 (min 255 q)⌋ ≤ ⌊(255 : ℚ)⌋ := Int.floor_le_floor h
  have h3 : ⌊(255 : ℚ)⌋ = 255 := by norm_num
  omega

theorem genFrame_all_le (f : ℚ → ℚ) (g : ℕ → ℚ) (t : ℚ) (n : ℕ) (sr : ℚ) :
    ((genFrame f g t n sr).all fun x => decide (x ≤ 255)) = true := by
  rw [List.all_eq_true]
  intro x hx
  rw [genFrame, List.mem_map] at hx
  obtain ⟨i, -, hi⟩ := hx
  rw [← hi]
  simpa using clampByte_le _

theorem updateVis_stopped (f : ℚ → ℚ) (g : ℕ → ℚ) (s : EngineState)
    (h : s.oscillator = false) :
    (updateVisualizationData f g s).1.animScheduled = false := by
  unfold updateVisualizationData
  rw [h]
  simp

theorem stopCurrent_player_some (s : EngineState) :
    (stopCurrent s).youtubePlayer.isSome = s.youtubePlayer.isSome := by
  unfold stopCurrent stopYouTubeVisualization clearPolling mapYT
  split_ifs <;> simp

theorem setPlaying_audio_fields (env : Env) (s : EngineState) (song : Song)
    (hu : isYouTubeUrl song.url = false) :
    (setPlaying env s song).currentSongType = SongType.audio ∧
    (setPlaying env s song).audio.src = some song.url := by
  unfold setPlaying loadNewSong
  rw [hu]
  simp only [Bool.false_eq_true, if_false]
  cases hw : !(isPaused s) with
  | false => simp
  | true =>
    have hyt2 : ytActive { stopCurrent s with
        currentSongType := SongType.audio,
        audio := { (stopCurrent s).audio with src := some song.url } } = false := by
      apply ytActive_of_audio
      rfl
    obtain ⟨p1, -, -, -, p5, -⟩ := play_nonyt_proj env _ hyt2
    simp only [if_true]
    rw [p1, p5]
    exact ⟨rfl, rfl⟩

theorem setPlaying_yt_fields (env : Env) (s : EngineState) (song : Song) (vid : String)
    (hid : getYouTubeVideoId song.url = some vid) (hp : s.youtubePlayer.isSome = true) :
    (setPlaying env s song).currentSongType = SongType.youtube ∧
    (setPlaying env s song).youtubePlayer.map YTPlayer.loadedVideo = some (some vid) ∧
    (setPlaying env s song).youtubePlayer.map YTPlayer.playerState = some YTState.buffering ∧
    (setPlaying env s song).youtubePlayer.isSome = true := by
  have hu : isYouTubeUrl song.url = true := (isYouTubeUrl_iff song.url).mpr ⟨vid, hid⟩
  have hps : (stopCurrent s).youtubePlayer.isSome = true := by
    rw [stopCurrent_player_some]; exact hp
  obtain ⟨p, hpl⟩ := Option.isSome_iff_exists.mp hps
  unfold setPlaying loadNewSong
  rw [hu, hid, hpl]
  simp only [if_true]
  cases hw : !(isPaused s) <;> simp

theorem play_yt_fields (env : Env) (s : EngineState) (hyt : ytActive s = true) :
    (play env s).1.currentSongType = s.currentSongType ∧
    (play env s).1.youtubePlayer =
      s.youtubePlayer.map (fun p => { p with playerState := YTState.playing }) ∧
    (play env s).1.intervalScheduled = true ∧
    (play env s).2 = none := by
  unfold play mapYT
  rw [hyt]
  simp

theorem isPaused_yt (s : EngineState) (p : YTPlayer) (hc : s.currentSongType = SongType.youtube)
    (hpl : s.youtubePlayer = some p) :
    isPaused s = decide (p.playerState ≠ YTState.playing) := by
  simp [isPaused, hc, hpl]

theorem play_audio_end (env : Env) (s : EngineState) (hyt : ytActive s = false)
    (hr : env.resumeOk = true) (hpo : env.playOk = true) :
    (play env s).1.audio.paused = false ∧ (play env s).1.ctxState = CtxState.running := by
  cases hcx : s.ctxState <;>
    (unfold play audioPlayStep; rw [hyt]; simp only [Bool.false_eq_true, if_false, hcx]) <;>
    split_ifs <;> simp_all

theorem stopCurrent_yt_player (s : EngineState) (hyt : ytActive s = true) :
    (stopCurrent s).youtubePlayer =
      s.youtubePlayer.map (fun p => { p with playerState := YTState.unstarted }) := by
  unfold stopCurrent stopYouTubeVisualization clearPolling mapYT
  rw [hyt]
  split_ifs <;> simp_all

/-- C1: every `setPlaying` call first fully stops the previously active
backend — with the YouTube backend active it stops the video, the synthetic
generator and the polling interval; otherwise it pauses the audio element —
and only then loads the new song; consequently on reachable states (`Inv`)
after any `setPlaying` at most one backend holds live state: whenever a
generator or interval is live, the YouTube backend is the active one and the
audio element is paused. -/
theorem c1_setPlaying_stops_previous (env : Env) (s : EngineState) (song : Song)
    (hInv : Inv s) :
    (s.currentSongType = SongType.youtube ∧ s.youtubePlayer.isSome = true →
      (stopCurrent s).oscillator = false ∧
      (stopCurrent s).intervalScheduled = false ∧
      (stopCurrent s).youtubePlayer =
        s.youtubePlayer.map (fun p => { p with playerState := YTState.unstarted })) ∧
    (¬(s.currentSongType = SongType.youtube ∧ s.youtubePlayer.isSome = true) →
      (stopCurrent s).audio.paused = true) ∧
    setPlaying env s song = loadNewSong env (!(isPaused s)) (stopCurrent s) song ∧
    Inv (setPlaying env s song) ∧
    ((setPlaying env s song).oscillator = true ∨ (setPlaying env s song).intervalScheduled = true →
      (setPlaying env s song).audio.paused = true) := by
  obtain ⟨hi, ho, hs, hp, -, -⟩ := stopCurrent_props s hInv
  have hinv2 : Inv (setPlaying env s song) := setPlaying_inv env s song hInv
  refine ⟨?_, fun _ => hp, rfl, hinv2, ?_⟩
  · intro hg
    exact ⟨ho, hs, stopCurrent_yt_player s ((ytActive_iff s).mpr hg)⟩
  · intro hlive
    obtain ⟨j1, j2, -⟩ := hinv2
    exact (j2 (j1 hlive)).1

/-- C1 witness: a concrete playing direct-media state satisfies `Inv`, and so
does the state after switching to a YouTube song. -/
theorem c1_witness : Inv cPlaying ∧ Inv (setPlaying cEnv cPlaying cSongA) :=
  ⟨by decide, (c1_setPlaying_stops_previous cEnv cPlaying cSongA (by decide)).2.2.2.1⟩

/-- C2 (code bug): the 500 ms delayed-resume timeout scheduled by
`setPlaying` for a YouTube song is never cancelled: it survives a second
`setPlaying` and a `destroy`, and when it later fires it starts playback of
the newly loaded (paused) direct-media song. -/
theorem c2_delayed_resume_not_cancelled :
    cS1.pendingResume = 1 ∧
    cS2.pendingResume = 1 ∧
    (destroy cS2).pendingResume = 1 ∧
    cS2.audio.paused = true ∧
    (firePendingResume cEnv cS2).1.audio.paused = false := by
  refine ⟨by decide, by decide, by decide, by decide, by decide⟩

/-- C3: `destroy()` pauses whatever backend is active, removes the four
audio-element listeners, clears the polling interval, stops the synthetic
generator (a pending animation frame then ends the frame loop without
rescheduling), destroys the embedded player, and running `destroy()` twice
yields the same state as running it once (in particular it does not fail). -/
theorem c3_destroy_complete (s : EngineState)
    (hInt : s.intervalScheduled = true → s.intervalHandle = true) :
    isPaused (destroy s) = true ∧
    (destroy s).lPlay = false ∧ (destroy s).lPause = false ∧
    (destroy s).lTimeupdate = false ∧ (destroy s).lEnded = false ∧
    (destroy s).intervalScheduled = false ∧
    (destroy s).oscillator = false ∧
    (destroy s).youtubePlayer.map YTPlayer.destroyed = s.youtubePlayer.map (fun _ => true) ∧
    (∀ f g, (updateVisualizationData f g (destroy s)).1.animScheduled = false) ∧
    destroy (destroy s) = destroy s := by
  obtain ⟨a1, a2, a3, a4, a5, a6, a7, a8⟩ := destroy_teardown s hInt
  exact ⟨a1, a2, a3, a4, a5, a6, a7, a8,
    fun f g => updateVis_stopped f g _ a7, destroy_idem s⟩

/-- C3 witness: teardown evaluated on a concrete fully live YouTube state. -/
theorem c3_witness :
    isPaused (destroy cVis) = true ∧ (destroy cVis).oscillator = false ∧
    (destroy cVis).intervalScheduled = false ∧ destroy (destroy cVis) = destroy cVis := by
  obtain ⟨a1, -, -, -, -, a6, a7, -, -, a10⟩ := c3_destroy_complete cVis (by decide)
  exact ⟨a1, a7, a6, a10⟩

/-- C4 counterexample: at a concrete suspended initial state, a rejected
`context.resume()` is returned to the caller of `play()` — the engine has no
internal catch, so the rejection is *not* swallowed inside the engine. -/
theorem c4_play_rejection_reaches_caller :
    (play { resumeOk := false, playOk := true } cSuspended).2 = some PlayErr.resumeRejected := by
  decide

/-- C4 (amended): `play()` is fallible — a failed resume or media play
propagates to the caller as the rejection of the returned promise — but
whenever it fails the observable state remains paused. -/
theorem c4_play_failure_leaves_paused (env : Env) (s : EngineState) (e : PlayErr)
    (h : (play env s).2 = some e) : isPaused (play env s).1 = true := by
  by_cases hyt : ytActive s = true
  · exfalso
    unfold play at h
    rw [hyt] at h
    simp at h
  · have hy : ytActive s = false := by simpa using hyt
    have hcp : ∀ t : EngineState, t.currentSongType = s.currentSongType →
        t.youtubePlayer = s.youtubePlayer → t.ctxState = CtxState.suspended ∨ t.audio.paused = true →
        isPaused t = true := by
      intro t h1 h2 h3
      unfold isPaused
      unfold ytActive at hy
      rw [h1, h2]
      cases hc : s.currentSongType <;> cases hpl : s.youtubePlayer <;>
        rcases h3 with h3 | h3 <;> simp_all
    unfold play audioPlayStep at h ⊢
    rw [hy] at h ⊢
    simp only [Bool.false_eq_true, if_false] at h ⊢
    split_ifs at h ⊢ <;> simp_all

/-- C4 witness: the amended statement applied at the concrete rejected call. -/
theorem c4_witness :
    isPaused (play { resumeOk := false, playOk := true } cSuspended).1 = true :=
  c4_play_failure_leaves_paused { resumeOk := false, playOk := true } cSuspended
    PlayErr.resumeRejected (by decide)

/-- C5 (code bug): every sample of the synthetic frame is clamped to the
0–255 byte range, but no visualization tick ever writes the frame into the
shared analyser sink — the frame is computed into a local buffer and
discarded (the analyser only ever receives the zero-gain oscillator), shown
both in general and on a concrete playing state. -/
theorem c5_frame_clamped_never_written :
    (∀ f g s, (updateVisualizationData f g s).1.analyserData = s.analyserData) ∧
    (∀ f g t n sr, ((genFrame f g t n sr).all fun x => decide (x ≤ 255)) = true) ∧
    (updateVisualizationData sinQ randQ cVis).2 =
      some (genFrame sinQ randQ (cVis.timeOffset + 1 / 10) cVis.bufferLength cVis.sampleRate) ∧
    (updateVisualizationData sinQ randQ cVis).1.analyserData = cVis.analyserData := by
  refine ⟨?_, genFrame_all_le, rfl, rfl⟩
  intro f g s
  unfold updateVisualizationData
  split_ifs <;> rfl

/-- C6: when the active backend reports natural completion, `onEnded`
advances the playlist sequencer and starts playback of the new current song
with no further user interaction: a direct-media successor ends up loaded and
unpaused, and an embedded-video successor ends up loaded, playing, with the
polling interval running (`queueNext` is modelled from the spec, the
queue-manager module being outside `src/`). -/
theorem c6_ended_advances_and_plays (env : Env) (sys : SysState) (q2 : QueueState) (song : Song)
    (h : queueNext sys.queue = (q2, some song))
    (hr : env.resumeOk = true) (hpo : env.playOk = true) :
    (onEnded env sys).1.queue = q2 ∧
    (isYouTubeUrl song.url = false →
      (onEnded env sys).1.engine.currentSongType = SongType.audio ∧
      (onEnded env sys).1.engine.audio.src = some song.url ∧
      isPaused (onEnded env sys).1.engine = false) ∧
    (∀ vid, getYouTubeVideoId song.url = some vid → sys.engine.youtubePlayer.isSome = true →
      (onEnded env sys).1.engine.currentSongType = SongType.youtube ∧
      (onEnded env sys).1.engine.youtubePlayer.map YTPlayer.loadedVideo = some (some vid) ∧
      (onEnded env sys).1.engine.intervalScheduled = true ∧
      isPaused (onEnded env sys).1.engine = false) := by
  have hq : (onEnded env sys).1.queue = q2 := by
    unfold onEnded
    rw [h]
  have e1def : (onEnded env sys).1.engine = (play env (setPlaying env sys.engine song)).1 := by
    unfold onEnded
    rw [h]
  refine ⟨hq, ?_, ?_⟩
  · intro hu
    rw [e1def]
    obtain ⟨f1, f2⟩ := setPlaying_audio_fields env sys.engine song hu
    have hyt : ytActive (setPlaying env sys.engine song) = false := ytActive_of_audio _ f1
    obtain ⟨g1, -, -, -, g5, -⟩ := play_nonyt_proj env _ hyt
    obtain ⟨e1p, e2p⟩ := play_audio_end env _ hyt hr hpo
    refine ⟨by rw [g1, f1], by rw [g5, f2], ?_⟩
    rw [isPaused_audio _ (by rw [g1, f1]), e1p, e2p]
    simp
  · intro vid hid hps
    rw [e1def]
    obtain ⟨y1, y2, -, y4⟩ := setPlaying_yt_fields env sys.engine song vid hid hps
    have hyt : ytActive (setPlaying env sys.engine song) = true := (ytActive_iff _).mpr ⟨y1, y4⟩
    obtain ⟨p1, p2, p3, -⟩ := play_yt_fields env _ hyt
    obtain ⟨p, hpl⟩ := Option.isSome_iff_exists.mp y4
    rw [hpl] at y2
    simp only [Option.map_some'] at y2
    refine ⟨by rw [p1, y1], ?_, p3, ?_⟩
    · rw [p2, hpl]
      simp only [Option.map_some']
      rw [show ({ p with playerState := YTState.playing } : YTPlayer).loadedVideo
          = p.loadedVideo from rfl]
      exact y2
    · rw [isPaused_yt _ { p with playerState := YTState.playing } (by rw [p1, y1])
        (by rw [p2, hpl]; rfl)]
      simp

/-- C6 witness: on a concrete two-song queue the `ended` handler loads and
starts the next (direct-media) song. -/
theorem c6_witness :
    (onEnded cEnv cSys).1.engine.audio.src = some "b.mp3" ∧
    isPaused (onEnded cEnv cSys).1.engine = false := by
  have h := (c6_ended_advances_and_plays cEnv cSys
      { songs := [cSongA, cSongB], currentIndex := some 1 } cSongB (by decide) rfl rfl).2.1
    (by decide)
  exact ⟨h.2.1, h.2.2⟩

/-- C7: URL classification is a total function of the url alone; both the
long watch form and the short-link form of the same id are classified as
embedded-video with the same extracted id, the add-song flow normalizes both
to the canonical watch form, and any url the pattern does not match makes
`setPlaying` select the direct-media backend with the url loaded as-is. -/
theorem c7_url_classification (vid : String) (h1 : vid.data ≠ [])
    (h2 : ∀ c ∈ vid.data, idChar c = true) :
    isYouTubeUrl ("https://www.youtube.com/watch?v=" ++ vid) = true ∧
    getYouTubeVideoId ("https://www.youtube.com/watch?v=" ++ vid) = some vid ∧
    isYouTubeUrl ("https://youtu.be/" ++ vid) = true ∧
    getYouTubeVideoId ("https://youtu.be/" ++ vid) = some vid ∧
    convertYouTubeUrl ("https://youtu.be/" ++ vid) = "https://www.youtube.com/watch?v=" ++ vid ∧
    convertYouTubeUrl ("https://www.youtube.com/watch?v=" ++ vid)
      = "https://www.youtube.com/watch?v=" ++ vid ∧
    (∀ env s song, isYouTubeUrl song.url = false →
      (setPlaying env s song).currentSongType = SongType.audio ∧
      (setPlaying env s song).audio.src = some song.url) := by
  have hw : findYTMatch ("https://www.youtube.com/watch?v=" ++ vid).data = some vid.data := by
    rw [data_append]
    exact fm_watch_url vid.data h1 h2
  have hs : findYTMatch ("https://youtu.be/" ++ vid).data = some vid.data := by
    rw [data_append]
    exact fm_short_url vid.data h1 h2
  have gw : getYouTubeVideoId ("https://www.youtube.com/watch?v=" ++ vid) = some vid := by
    unfold getYouTubeVideoId
    rw [hw]
    simp only [Option.map_some']
  have gs : getYouTubeVideoId ("https://youtu.be/" ++ vid) = some vid := by
    unfold getYouTubeVideoId
    rw [hs]
    simp only [Option.map_some']
  refine ⟨?_, gw, ?_, gs, ?_, ?_, ?_⟩
  · unfold isYouTubeUrl
    rw [hw]
    rfl
  · unfold isYouTubeUrl
    rw [hs]
    rfl
  · unfold convertYouTubeUrl
    rw [gs]
  · unfold convertYouTubeUrl
    rw [gw]
  · intro env s song hu
    exact setPlaying_audio_fields env s song hu

/-- C7 witness: both concrete input forms of the id `XYZ123` classify as
embedded-video with the same id and normalize to the canonical watch url. -/
theorem c7_witness :
    getYouTubeVideoId "https://www.youtube.com/watch?v=XYZ123" = some "XYZ123" ∧
    getYouTubeVideoId "https://youtu.be/XYZ123" = some "XYZ123" ∧
    convertYouTubeUrl "https://youtu.be/XYZ123" = "https://www.youtube.com/watch?v=XYZ123" := by
  have h := c7_url_classification "XYZ123" (by decide) (by decide)
  exact ⟨h.2.1, h.2.2.2.1, h.2.2.2.2.1⟩

/-- C8: for a volume in the public 0–1 range, `setVolume` then `getVolume`
round-trips exactly on either backend; the embedded backend stores the
rescaled native 0–100 value. -/
theorem c8_volume_roundtrip (s : EngineState) (v : ℚ) (h0 : 0 ≤ v) (h1 : v ≤ 1) :
    getVolume (setVolume s v) = v ∧
    (∀ p, s.currentSongType = SongType.youtube → s.youtubePlayer = some p →
      (setVolume s v).youtubePlayer.map YTPlayer.ytVolume = some (v * 100)) := by
  constructor
  · cases hc : s.currentSongType <;> cases hpl : s.youtubePlayer <;>
      simp [getVolume, setVolume, mapYT, hc, hpl]
  · intro p hc hpl
    simp [setVolume, mapYT, hc, hpl]

/-- C8 witness: the round-trip evaluated at volume one half on a concrete
YouTube-active state. -/
theorem c8_witness :
    0 ≤ mkRat 1 2 ∧ mkRat 1 2 ≤ 1 ∧
    getVolume (setVolume cVis (mkRat 1 2)) = mkRat 1 2 :=
  ⟨by decide, by decide, (c8_volume_roundtrip cVis (mkRat 1 2) (by decide) (by decide)).1⟩

/-- C9: `isPaused()` is true at the freshly initialized engine, after any
explicit `pause()`, and — with the embedded backend active — whenever the
player reports any state other than playing. -/
theorem c9_isPaused_cases :
    (∀ c0 bl sr, isPaused (initialState c0 bl sr) = true) ∧
    (∀ s, isPaused (pause s) = true) ∧
    (∀ s p, s.currentSongType = SongType.youtube → s.youtubePlayer = some p →
      p.playerState ≠ YTState.playing → isPaused s = true) := by
  refine ⟨?_, ?_, ?_⟩
  · intro c0 bl sr
    cases c0 <;> simp [isPaused, initialState]
  · intro s
    by_cases hyt : ytActive s = true
    · obtain ⟨hc, hp⟩ := (ytActive_iff s).mp hyt
      obtain ⟨p, hpl⟩ := Option.isSome_iff_exists.mp hp
      unfold pause clearPolling stopYouTubeVisualization mapYT
      rw [hyt]
      split_ifs <;> simp_all [isPaused]
    · have hy : ytActive s = false := by simpa using hyt
      unfold pause
      rw [hy]
      simp only [Bool.false_eq_true, if_false]
      cases hc : s.currentSongType
      · rw [isPaused_audio _ rfl]
        simp
      · have hpn : s.youtubePlayer = none := by
          cases hpl : s.youtubePlayer
          · rfl
          · exfalso
            rw [ytActive_iff] at hyt
            exact hyt ⟨hc, by rw [hpl]; rfl⟩
        simp [isPaused, hc, hpn]
  · intro s p hc hpl hne
    simp [isPaused, hc, hpl, hne]

/-- C9 witness: a concrete YouTube-active state whose player is unstarted
reports paused. -/
theorem c9_witness : isPaused cVis = true :=
  c9_isPaused_cases.2.2 cVis cPlayer rfl rfl (by decide)

/-- C10: a `setPlaying` with an embedded-video url arriving before the
YouTube player instance exists only pauses the audio element: no backend
switch, nothing loaded, no pending resume, the audio source untouched. -/
theorem c10_setPlaying_noop_before_player (env : Env) (s : EngineState) (song : Song)
    (h1 : isYouTubeUrl song.url = true) (h2 : s.youtubePlayer = none) :
    setPlaying env s song = { s with audio := { s.audio with paused := true } } := by
  have hyt : ytActive s = false := by
    unfold ytActive
    rw [h2]
    cases s.currentSongType <;> rfl
  unfold setPlaying loadNewSong stopCurrent
  rw [hyt]
  simp only [Bool.false_eq_true, if_false]
  rw [h1]
  simp only [if_true]
  cases hid : getYouTubeVideoId song.url <;> simp [h2]

/-- C10 witness: the no-op evaluated at a concrete playerless state and a
concrete YouTube url. -/
theorem c10_witness :
    setPlaying cEnv cIdleAudio cSongA
      = { cIdleAudio with audio := { cIdleAudio.audio with paused := true } } :=
  c10_setPlaying_noop_before_player cEnv cIdleAudio cSongA (by decide) rfl

end MusicManager
